import Mathlib

/-!
Verification of the djangocms-picture plugin (models.py).

The embedding below translates the Picture model's three pieces of logic:
the size-resolution function get_size, the link resolver get_link, and the
clean validator, together with the default alignment choice list
PICTURE_ALIGNMENT. Django field truthiness is modelled explicitly: a blank
URLField or CharField is the empty string (falsy), a nullable foreign key
is an Option (truthy iff present), and a nullable PositiveIntegerField is
an Option Nat where both None and 0 are falsy, matching Python.
-/

namespace DjangocmsPicture

/-- A filer ThumbnailOption preset: width, height, crop and upscale,
as consumed by Picture.get_size. -/
structure ThumbnailOption where
  width : Nat
  height : Nat
  crop : Bool
  upscale : Bool
deriving DecidableEq, Repr

/-- A CMS page reference; get_link only consults its absolute url. -/
structure Page where
  get_absolute_url : String
deriving DecidableEq, Repr

/-- Python truthiness of a nullable positive-integer field:
None and 0 are both falsy. -/
def truthyNat : Option Nat → Bool
  | none => false
  | some n => n != 0

/-- The Picture plugin configuration: the fields read by get_size,
get_link and clean. The field picture models the truthiness of the
embedded filer image foreign key; presentation-only fields (alignment,
caption_text, attributes, link_target, link_attributes) are not read by
any of the three functions and are omitted. -/
structure Picture where
  picture : Bool
  external_picture : String
  width : Option Nat
  height : Option Nat
  link_url : String
  link_page : Option Page
  use_automatic_scaling : Bool
  use_no_cropping : Bool
  use_crop : Bool
  use_upscale : Bool
  use_thumbnail : Option ThumbnailOption
deriving DecidableEq, Repr

/-- The options dict returned by Picture.get_size. -/
structure SizeOptions where
  size : Nat × Nat
  crop : Bool
  upscale : Bool
deriving DecidableEq, Repr

/-- Picture.get_size (models.py lines 173-202): start from zero size and
false flags, override from the width and height fields when truthy, then
from use_crop and use_upscale, then wholesale from use_thumbnail. -/
def Picture.get_size (self : Picture) : SizeOptions :=
  let width : Nat := 0
  let height : Nat := 0
  let crop : Bool := false
  let upscale : Bool := false
  let width := if truthyNat self.width then self.width.getD 0 else width
  let height := if truthyNat self.height then self.height.getD 0 else height
  let crop := if self.use_crop then self.use_crop else crop
  let upscale := if self.use_upscale then self.use_upscale else upscale
  match self.use_thumbnail with
  | some thumb => { size := (thumb.width, thumb.height),
                    crop := thumb.crop, upscale := thumb.upscale }
  | none => { size := (width, height), crop := crop, upscale := upscale }

/-- Picture.get_link (models.py lines 204-209); the Python return value
False (no link) is modelled as none. -/
def Picture.get_link (self : Picture) : Option String :=
  if self.link_url != "" then
    some self.link_url
  else
    match self.link_page with
    | some page => some page.get_absolute_url
    | none => none

/-- The three validation failures raised by Picture.clean, named after the
error taxonomy of the specification. -/
inductive ValidationError where
  | conflictingLink
  | missingImageSource
  | conflictingCroppingOptions
deriving DecidableEq, Repr

/-- The cropping-exclusion condition of Picture.clean (models.py lines
222-230), a disjunction of nine conjunctions of field truthiness. -/
def Picture.croppingConflict (self : Picture) : Bool :=
  self.use_automatic_scaling && self.use_no_cropping ||
  self.use_automatic_scaling && self.use_crop ||
  self.use_automatic_scaling && self.use_upscale ||
  self.use_automatic_scaling && self.use_thumbnail.isSome ||
  self.use_no_cropping && self.use_crop ||
  self.use_no_cropping && self.use_upscale ||
  self.use_no_cropping && self.use_thumbnail.isSome ||
  self.use_thumbnail.isSome && self.use_crop ||
  self.use_thumbnail.isSome && self.use_upscale

/-- Picture.clean (models.py lines 211-235): the link check, then the
image-source check, then the cropping check, short-circuiting at the
first failure. -/
def Picture.clean (self : Picture) : Except ValidationError Unit :=
  if self.link_url != "" && self.link_page.isSome then
    .error .conflictingLink
  else if !self.picture && self.external_picture == "" then
    .error .missingImageSource
  else if self.croppingConflict then
    .error .conflictingCroppingOptions
  else
    .ok ()

/-- The default alignment choice list (value, label pairs) used when the
host setting DJANGOCMS_PICTURE_ALIGN is absent (models.py lines 23-31). -/
def PICTURE_ALIGNMENT : List (String × String) :=
  [("left", "Align left"), ("right", "Align right"), ("left", "Align center")]

/-- The nine forbidden cropping pairs as the specification groups them:
automatic scaling excludes no-cropping, crop, upscale and thumbnail;
no-cropping excludes crop, upscale and thumbnail; thumbnail excludes crop
and upscale. -/
def forbiddenPairSpec (c : Picture) : Prop :=
  (c.use_automatic_scaling ∧
    (c.use_no_cropping ∨ c.use_crop ∨ c.use_upscale ∨ c.use_thumbnail.isSome)) ∨
  (c.use_no_cropping ∧ (c.use_crop ∨ c.use_upscale ∨ c.use_thumbnail.isSome)) ∨
  (c.use_thumbnail.isSome ∧ (c.use_crop ∨ c.use_upscale))

instance (c : Picture) : Decidable (forbiddenPairSpec c) := by
  unfold forbiddenPairSpec
  infer_instance

deriving instance DecidableEq for Except

/-- The configuration with every field blank or false. -/
def emptyConfig : Picture :=
  { picture := false, external_picture := "", width := none, height := none,
    link_url := "", link_page := none, use_automatic_scaling := false,
    use_no_cropping := false, use_crop := false, use_upscale := false,
    use_thumbnail := none }

/-- Both link fields set, an image present, and a forbidden cropping pair
(automatic scaling together with crop). -/
def cLinkAndCrop : Picture :=
  { emptyConfig with
      picture := true
      link_url := "u"
      link_page := some ⟨"/p/"⟩
      use_automatic_scaling := true
      use_crop := true }

/-- Crop and upscale together, all other toggles unset, image present. -/
def cCropUpscale : Picture :=
  { emptyConfig with picture := true, use_crop := true, use_upscale := true }

/-- The resolution-precedence example of the specification: explicit
width 100 and height 50, use_crop set, preset width 300, height 200,
crop false, upscale true. -/
def cPresetExample : Picture :=
  { emptyConfig with
      picture := true
      width := some 100
      height := some 50
      use_crop := true
      use_thumbnail := some ⟨300, 200, false, true⟩ }

/-- Both link fields set and no image source at all. -/
def cBothLinksNoImage : Picture :=
  { emptyConfig with link_url := "u", link_page := some ⟨"/p/"⟩ }

/-- Both link fields set with an image present. -/
def cBothLinks : Picture :=
  { emptyConfig with
      picture := true
      link_url := "u"
      link_page := some ⟨"/p/"⟩ }

/-- Only the internal page link set, resolving to /about/. -/
def cPageLink : Picture :=
  { emptyConfig with picture := true, link_page := some ⟨"/about/"⟩ }

lemma croppingConflict_iff_forbiddenPairSpec (c : Picture) :
    c.croppingConflict = true ↔ forbiddenPairSpec c := by
  obtain ⟨pic, ext, w, hgt, lu, lp, uas, unc, uc, uu, ut⟩ := c
  unfold Picture.croppingConflict forbiddenPairSpec
  rcases ut with _ | t <;> cases uas <;> cases unc <;> cases uc <;> cases uu <;>
    simp

lemma clean_both_links (c : Picture) (h1 : c.link_url ≠ "")
    (h2 : c.link_page.isSome = true) :
    c.clean = Except.error ValidationError.conflictingLink := by
  have hcond : (c.link_url != "" && c.link_page.isSome) = true := by
    simp [h2, bne_iff_ne, h1]
  simp [Picture.clean, hcond]

lemma if_self_else_false (b : Bool) : (if b then b else false) = b := by
  cases b <;> simp

lemma truthy_width_getD (o : Option Nat) :
    (if truthyNat o then o.getD 0 else 0) = o.getD 0 := by
  rcases o with _ | n
  · simp [truthyNat]
  · by_cases hn : n = 0 <;> simp [truthyNat, hn]

/-- Claim C1, counterexample: at a config with both link fields set, an
image present, and automatic scaling combined with crop, a forbidden
cropping pair holds but validation fails with the link error, so the
claimed equivalence is false as stated over all configs. -/
theorem c1_counterexample :
    ¬ (cLinkAndCrop.clean = Except.error ValidationError.conflictingCroppingOptions ↔
      forbiddenPairSpec cLinkAndCrop) := by
  decide

/-- Claim C1 (amended): for every config that passes the link check and
the image-source check, validation fails with
ConflictingCroppingOptionsError if and only if one of the nine forbidden
pairs is simultaneously true. -/
theorem c1_cropping_iff (c : Picture)
    (hlink : (c.link_url != "" && c.link_page.isSome) = false)
    (himg : (!c.picture && (c.external_picture == "")) = false) :
    c.clean = Except.error ValidationError.conflictingCroppingOptions ↔
      forbiddenPairSpec c := by
  rw [← croppingConflict_iff_forbiddenPairSpec]
  cases hcc : c.croppingConflict
  · simp [Picture.clean, hlink, himg, hcc]
  · simp [Picture.clean, hlink, himg, hcc]

/-- Claim C1 witness: the config with use_crop and use_upscale set and all
other toggles unset passes both earlier checks, and by the theorem its
validation outcome matches the forbidden-pair predicate; concretely it
passes the cropping check. -/
theorem c1_cropping_iff_witness :
    (cCropUpscale.clean = Except.error ValidationError.conflictingCroppingOptions ↔
      forbiddenPairSpec cCropUpscale) ∧ cCropUpscale.clean = Except.ok () :=
  ⟨c1_cropping_iff cCropUpscale (by decide) (by decide), by decide⟩

/-- Claim C2: whenever the thumbnail preset is set, get_size returns
exactly the preset width, height, crop and upscale, regardless of the
explicit width, height, use_crop and use_upscale fields. -/
theorem c2_preset_overrides (c : Picture) (t : ThumbnailOption)
    (h : c.use_thumbnail = some t) :
    c.get_size = { size := (t.width, t.height), crop := t.crop,
                   upscale := t.upscale } := by
  simp [Picture.get_size, h]

/-- Claim C2 witness: the precedence example with explicit width 100,
height 50, use_crop set and preset width 300, height 200, crop false,
upscale true resolves to the preset values wholesale. -/
theorem c2_preset_overrides_witness :
    cPresetExample.get_size = { size := (300, 200), crop := false,
                                upscale := true } :=
  c2_preset_overrides cPresetExample ⟨300, 200, false, true⟩ rfl

/-- Claim C3: with no thumbnail preset, get_size returns the explicit
width and height when set (0 otherwise) and passes use_crop and
use_upscale through unchanged. -/
theorem c3_no_preset (c : Picture) (h : c.use_thumbnail = none) :
    c.get_size = { size := (c.width.getD 0, c.height.getD 0),
                   crop := c.use_crop, upscale := c.use_upscale } := by
  simp only [Picture.get_size, h, truthy_width_getD, if_self_else_false]

/-- Claim C3 witness: with no overrides at all the directive is size
(0, 0), crop false, upscale false. -/
theorem c3_no_preset_witness :
    emptyConfig.get_size = { size := (0, 0), crop := false,
                             upscale := false } :=
  c3_no_preset emptyConfig rfl

/-- Claim C4: whenever both link_url and link_page are set, validation
fails with ConflictingLinkError. -/
theorem c4_conflicting_link (c : Picture) (h1 : c.link_url ≠ "")
    (h2 : c.link_page.isSome = true) :
    c.clean = Except.error ValidationError.conflictingLink :=
  clean_both_links c h1 h2

/-- Claim C4 witness: a concrete config with both links set fails with
the conflicting-link error. -/
theorem c4_conflicting_link_witness :
    cBothLinks.clean = Except.error ValidationError.conflictingLink :=
  c4_conflicting_link cBothLinks (by decide) rfl

/-- Claim C5, counterexample: a config with neither image source but with
both link fields set fails with the link error, not the missing-image
error, so the claim is false as stated over all configs. -/
theorem c5_counterexample :
    cBothLinksNoImage.picture = false ∧ cBothLinksNoImage.external_picture = "" ∧
      cBothLinksNoImage.clean ≠ Except.error ValidationError.missingImageSource := by
  decide

/-- Claim C5 (amended): every config that passes the link check and has
neither an embedded image nor an external image URL fails validation with
MissingImageSourceError. -/
theorem c5_missing_image (c : Picture)
    (hlink : (c.link_url != "" && c.link_page.isSome) = false)
    (hp : c.picture = false) (he : c.external_picture = "") :
    c.clean = Except.error ValidationError.missingImageSource := by
  simp [Picture.clean, hlink, hp, he]

/-- Claim C5 witness: the all-blank config fails with the missing-image
error. -/
theorem c5_missing_image_witness :
    emptyConfig.clean = Except.error ValidationError.missingImageSource :=
  c5_missing_image emptyConfig (by decide) rfl rfl

/-- Claim C6: the link invariant is checked before the image-source
invariant: a config with both links set and no image source fails with
ConflictingLinkError, not MissingImageSourceError. -/
theorem c6_link_checked_before_image (c : Picture) (h1 : c.link_url ≠ "")
    (h2 : c.link_page.isSome = true) (hp : c.picture = false)
    (he : c.external_picture = "") :
    c.clean = Except.error ValidationError.conflictingLink ∧
      c.clean ≠ Except.error ValidationError.missingImageSource := by
  rw [clean_both_links c h1 h2]
  exact ⟨rfl, by decide⟩

/-- Claim C6 witness: a concrete config with both links set and no image
source fails with the conflicting-link error. -/
theorem c6_link_checked_before_image_witness :
    cBothLinksNoImage.clean = Except.error ValidationError.conflictingLink ∧
      cBothLinksNoImage.clean ≠ Except.error ValidationError.missingImageSource :=
  c6_link_checked_before_image cBothLinksNoImage (by decide) rfl rfl rfl

/-- Claim C7: get_link returns link_url when it is nonempty; otherwise
the absolute url of link_page when present; otherwise absence. -/
theorem c7_get_link_precedence (c : Picture) :
    (c.link_url ≠ "" → c.get_link = some c.link_url) ∧
    (c.link_url = "" →
      (∀ p, c.link_page = some p → c.get_link = some p.get_absolute_url) ∧
      (c.link_page = none → c.get_link = none)) := by
  constructor
  · intro h
    simp [Picture.get_link, bne_iff_ne, h]
  · intro h
    constructor
    · intro p hp
      simp [Picture.get_link, h, hp]
    · intro hn
      simp [Picture.get_link, h, hn]

/-- Claim C7 witness: with only the internal page link set, resolving to
/about/, get_link returns /about/. -/
theorem c7_get_link_precedence_witness : cPageLink.get_link = some "/about/" :=
  ((c7_get_link_precedence cPageLink).2 rfl).1 ⟨"/about/"⟩ rfl

/-- Claim C8: use_automatic_scaling and use_no_cropping have no influence
on get_size: changing only those two fields never changes the directive. -/
theorem c8_intent_flags_no_influence (c : Picture) (a b : Bool) :
    Picture.get_size { c with use_automatic_scaling := a, use_no_cropping := b } =
      c.get_size := rfl

/-- Claim C9: the image-source fields have no influence on get_size:
changing only the embedded image presence and external image URL never
changes the directive. -/
theorem c9_image_fields_no_influence (c : Picture) (p : Bool) (e : String) :
    Picture.get_size { c with picture := p, external_picture := e } =
      c.get_size := rfl

/-- Claim C10: the default alignment choice list contains the value left
twice, once labelled Align left and once labelled Align center, and
contains no center value. -/
theorem c10_alignment_default_duplicate :
    PICTURE_ALIGNMENT.countP (fun choice => choice.1 == "left") = 2 ∧
    ("left", "Align left") ∈ PICTURE_ALIGNMENT ∧
    ("left", "Align center") ∈ PICTURE_ALIGNMENT ∧
    ¬ ("center" ∈ PICTURE_ALIGNMENT.map Prod.fst) := by
  decide

end DjangocmsPicture
